import Mathlib

/-!
Verification of `docker/pythonpath_dev/superset_config.py`, the deployment-time
configuration module of the Superset Docker image.

The module is embedded shallowly:
* the process environment is a partial map from variable names to strings;
* `get_env_variable` returns `Except String String`, with the error string
  standing for the raised `EnvironmentError` message;
* the sequence of module-level assignments is embedded twice, once as
  `resolveConfig` (producing the complete derived configuration or the first
  error) and once as `moduleTrace` (recording the partial list of assignments
  made before the first error, in statement order);
* the final step loading `superset_config_docker` and star-importing its
  names is embedded as `applyDockerOverride` over namespaces modelled as
  partial maps from top-level names to values.
-/

/-- The process environment (`os.environ`): a partial map from variable
names to string values. -/
abbrev Env := String → Option String

/-- The message of the `EnvironmentError` raised by `get_env_variable`
(source: `"The environment variable {} was missing, abort...".format(var_name)`). -/
def missing_error_msg (var_name : String) : String :=
  "The environment variable " ++ var_name ++ " was missing, abort..."

/-- `get_env_variable(var_name, default=None)`: return `os.environ[var_name]`
if present; on `KeyError` return the default if one was supplied, else raise
`EnvironmentError` with `missing_error_msg`. -/
def get_env_variable (env : Env) (var_name : String) (default : Option String) :
    Except String String :=
  match env var_name with
  | some v => Except.ok v
  | none =>
    match default with
    | some d => Except.ok d
    | none => Except.error (missing_error_msg var_name)

/-- The SQLAlchemy connection string `"%s://%s:%s@%s:%s/%s" % (dialect, user,
password, host, port, db)`. -/
def format_database_uri (dialect user password host port db : String) : String :=
  dialect ++ "://" ++ user ++ ":" ++ password ++ "@" ++ host ++ ":" ++ port ++ "/" ++ db

/-- The `CACHE_CONFIG` dictionary of the module (six fixed keys). -/
structure CacheConfig where
  CACHE_TYPE : String
  CACHE_DEFAULT_TIMEOUT : Nat
  CACHE_KEY_PREFIX : String
  CACHE_REDIS_HOST : String
  CACHE_REDIS_PORT : String
  CACHE_REDIS_DB : String
deriving DecidableEq, Repr, Inhabited

/-- The `CACHE_CONFIG` value built by the module from the resolved Redis
variables. -/
def mkCacheConfig (redis_host redis_port redis_results_db : String) : CacheConfig :=
  { CACHE_TYPE := "redis"
    CACHE_DEFAULT_TIMEOUT := 300
    CACHE_KEY_PREFIX := "superset_"
    CACHE_REDIS_HOST := redis_host
    CACHE_REDIS_PORT := redis_port
    CACHE_REDIS_DB := redis_results_db }

/-- A `crontab(minute=..., hour=...)` schedule descriptor; integer arguments
are rendered as their decimal strings. -/
structure CrontabSchedule where
  minute : String
  hour : String
deriving DecidableEq, Repr, Inhabited

/-- One entry of `CeleryConfig.beat_schedule`: a task identifier and its
schedule. -/
structure BeatEntry where
  task : String
  schedule : CrontabSchedule
deriving DecidableEq, Repr, Inhabited

/-- The class body of `CeleryConfig` in the module. -/
structure CeleryConfig where
  broker_url : String
  imports : List String
  result_backend : String
  worker_prefetch_multiplier : Nat
  task_acks_late : Bool
  beat_schedule : List (String × BeatEntry)
deriving DecidableEq, Repr, Inhabited

/-- The `CeleryConfig` value built by the module from the resolved Redis
variables. -/
def mkCeleryConfig (redis_host redis_port redis_celery_db redis_results_db : String) :
    CeleryConfig :=
  { broker_url := "redis://" ++ redis_host ++ ":" ++ redis_port ++ "/" ++ redis_celery_db
    imports := ["superset.sql_lab"]
    result_backend := "redis://" ++ redis_host ++ ":" ++ redis_port ++ "/" ++ redis_results_db
    worker_prefetch_multiplier := 1
    task_acks_late := false
    beat_schedule :=
      [("reports.scheduler", { task := "reports.scheduler", schedule := { minute := "*", hour := "*" } }),
       ("reports.prune_log", { task := "reports.prune_log", schedule := { minute := "10", hour := "0" } })] }

/-- The environment-derived part of the module-level configuration, in the
order the assignments appear in the source. -/
structure SupersetConfig where
  DATABASE_DIALECT : String
  DATABASE_USER : String
  DATABASE_PASSWORD : String
  DATABASE_HOST : String
  DATABASE_PORT : String
  DATABASE_DB : String
  SQLALCHEMY_DATABASE_URI : String
  REDIS_HOST : String
  REDIS_PORT : String
  REDIS_CELERY_DB : String
  REDIS_RESULTS_DB : String
  CACHE_CONFIG : CacheConfig
  DATA_CACHE_CONFIG : CacheConfig
  CELERY_CONFIG : CeleryConfig
deriving DecidableEq, Repr, Inhabited

/-- The module-level resolution sequence: each required variable is read with
`get_env_variable` (no default), the two Redis db indices with defaults `"0"`
and `"1"`, and the derived values are assembled exactly as in the source.
The first failing lookup aborts with its error. -/
def resolveConfig (env : Env) : Except String SupersetConfig :=
  match get_env_variable env "DATABASE_DIALECT" none with
  | Except.error e => Except.error e
  | Except.ok database_dialect =>
  match get_env_variable env "DATABASE_USER" none with
  | Except.error e => Except.error e
  | Except.ok database_user =>
  match get_env_variable env "DATABASE_PASSWORD" none with
  | Except.error e => Except.error e
  | Except.ok database_password =>
  match get_env_variable env "DATABASE_HOST" none with
  | Except.error e => Except.error e
  | Except.ok database_host =>
  match get_env_variable env "DATABASE_PORT" none with
  | Except.error e => Except.error e
  | Except.ok database_port =>
  match get_env_variable env "DATABASE_DB" none with
  | Except.error e => Except.error e
  | Except.ok database_db =>
  match get_env_variable env "REDIS_HOST" none with
  | Except.error e => Except.error e
  | Except.ok redis_host =>
  match get_env_variable env "REDIS_PORT" none with
  | Except.error e => Except.error e
  | Except.ok redis_port =>
  match get_env_variable env "REDIS_CELERY_DB" (some "0") with
  | Except.error e => Except.error e
  | Except.ok redis_celery_db =>
  match get_env_variable env "REDIS_RESULTS_DB" (some "1") with
  | Except.error e => Except.error e
  | Except.ok redis_results_db =>
  Except.ok
    { DATABASE_DIALECT := database_dialect
      DATABASE_USER := database_user
      DATABASE_PASSWORD := database_password
      DATABASE_HOST := database_host
      DATABASE_PORT := database_port
      DATABASE_DB := database_db
      SQLALCHEMY_DATABASE_URI :=
        format_database_uri database_dialect database_user database_password
          database_host database_port database_db
      REDIS_HOST := redis_host
      REDIS_PORT := redis_port
      REDIS_CELERY_DB := redis_celery_db
      REDIS_RESULTS_DB := redis_results_db
      CACHE_CONFIG := mkCacheConfig redis_host redis_port redis_results_db
      DATA_CACHE_CONFIG := mkCacheConfig redis_host redis_port redis_results_db
      CELERY_CONFIG := mkCeleryConfig redis_host redis_port redis_celery_db redis_results_db }

/-- The module constant `DEFAULT_FEATURE_FLAGS`, an ordered dictionary from
flag name to boolean default, transcribed entry by entry in source order. -/
def DEFAULT_FEATURE_FLAGS : List (String × Bool) :=
  [("ALLOW_DASHBOARD_DOMAIN_SHARDING", true),
   ("CLIENT_CACHE", false),
   ("DISABLE_DATASET_SOURCE_EDIT", false),
   ("DRUID_JOINS", false),
   ("DYNAMIC_PLUGINS", false),
   ("DISABLE_LEGACY_DATASOURCE_EDITOR", true),
   ("ENABLE_EXPLORE_JSON_CSRF_PROTECTION", false),
   ("ENABLE_TEMPLATE_PROCESSING", false),
   ("ENABLE_TEMPLATE_REMOVE_FILTERS", false),
   ("ENABLE_JAVASCRIPT_CONTROLS", false),
   ("KV_STORE", false),
   ("PRESTO_EXPAND_DATA", false),
   ("THUMBNAILS", false),
   ("DASHBOARD_CACHE", false),
   ("REMOVE_SLICE_LEVEL_LABEL_COLORS", false),
   ("SHARE_QUERIES_VIA_KV_STORE", false),
   ("TAGGING_SYSTEM", false),
   ("SQLLAB_BACKEND_PERSISTENCE", true),
   ("LISTVIEWS_DEFAULT_CARD_VIEW", false),
   ("DISPLAY_MARKDOWN_HTML", true),
   ("ESCAPE_MARKDOWN_HTML", false),
   ("DASHBOARD_NATIVE_FILTERS", true),
   ("DASHBOARD_CROSS_FILTERS", false),
   ("DASHBOARD_NATIVE_FILTERS_SET", false),
   ("DASHBOARD_FILTERS_EXPERIMENTAL", false),
   ("DASHBOARD_VIRTUALIZATION", false),
   ("GLOBAL_ASYNC_QUERIES", false),
   ("VERSIONED_EXPORT", true),
   ("EMBEDDED_SUPERSET", true),
   ("ALERT_REPORTS", false),
   ("DASHBOARD_RBAC", false),
   ("ENABLE_EXPLORE_DRAG_AND_DROP", true),
   ("ENABLE_FILTER_BOX_MIGRATION", false),
   ("ENABLE_ADVANCED_DATA_TYPES", false),
   ("ENABLE_DND_WITH_CLICK_UX", true),
   ("ALERTS_ATTACH_REPORTS", true),
   ("FORCE_DATABASE_CONNECTIONS_SSL", false),
   ("ENFORCE_DB_ENCRYPTION_UI", false),
   ("ALLOW_FULL_CSV_EXPORT", false),
   ("UX_BETA", false),
   ("GENERIC_CHART_AXES", false),
   ("ALLOW_ADHOC_SUBQUERY", false),
   ("USE_ANALAGOUS_COLORS", false),
   ("DASHBOARD_EDIT_CHART_IN_NEW_TAB", false),
   ("RLS_IN_SQLLAB", false),
   ("CACHE_IMPERSONATION", false),
   ("EMBEDDABLE_CHARTS", true),
   ("DRILL_TO_DETAIL", false),
   ("DATAPANEL_CLOSED_BY_DEFAULT", false),
   ("HORIZONTAL_FILTER_BAR", false),
   ("ESTIMATE_QUERY_COST", false),
   ("SSH_TUNNELING", false)]

/-- The module constant `FEATURE_FLAGS = {"ALERT_REPORTS": True}`: the
module's own feature-flag override mapping. -/
def FEATURE_FLAGS : List (String × Bool) :=
  [("ALERT_REPORTS", true)]

/-- Dictionary lookup on an ordered association list (Python `d[k]` /
`d.get(k)` on a dict whose entries are listed in insertion order). -/
def dictGet (d : List (String × Bool)) (k : String) : Option Bool :=
  match d with
  | [] => none
  | p :: t => if p.1 = k then some p.2 else dictGet t k

/-- Whether a key is present in the dictionary. -/
def dictHasKey (d : List (String × Bool)) (k : String) : Bool :=
  match d with
  | [] => false
  | p :: t => if p.1 = k then true else dictHasKey t k

/-- Python dict assignment `d[k] = v`: an existing key keeps its position and
gets the new value, a new key is appended at the end. -/
def dictSet (d : List (String × Bool)) (k : String) (v : Bool) : List (String × Bool) :=
  if dictHasKey d k then d.map (fun p => if p.1 = k then (k, v) else p)
  else d ++ [(k, v)]

/-- Python `d.update(o)` / `{**d, **o}`: every entry of `o` is assigned into
`d` in order. -/
def dictUpdate (d : List (String × Bool)) (o : List (String × Bool)) : List (String × Bool) :=
  o.foldl (fun acc p => dictSet acc p.1 p.2) d

/-- Modelled from the spec: the host application's layered merge of the
feature-flag tables is not part of this module ("their values can be
overwritten by those specified under FEATURE_FLAGS"); the spec and the source
comment describe it as the override mapping layered on top of
`DEFAULT_FEATURE_FLAGS`, combining into a single mapping where the override's
entries win. `flags` is the module-level `FEATURE_FLAGS` mapping in effect
(after any Docker override). -/
def mergedFeatureFlags (flags : List (String × Bool)) : List (String × Bool) :=
  dictUpdate DEFAULT_FEATURE_FLAGS flags

/-- `from superset_config_docker import *` over namespaces modelled as
partial maps from top-level names to values: every name the override module
exposes is copied into the base namespace, replacing an existing binding of
the same name. -/
def importStar {V : Type} (base ov : String → Option V) : String → Option V :=
  fun n =>
    match ov n with
    | some v => some v
    | none => base n

/-- The final `try: import superset_config_docker ... except ImportError`
step: when the override module is available its names are star-imported over
the base namespace and the load is logged; when it cannot be located the
base namespace is kept unchanged and "Using default Docker config..." is
logged. The result is the final namespace together with the logged message;
both branches return normally (the condition is non-fatal). -/
def applyDockerOverride {V : Type} (base : String → Option V)
    (ov : Option (String → Option V)) : (String → Option V) × String :=
  match ov with
  | some o => (importStar base o, "Loaded your Docker configuration")
  | none => (base, "Using default Docker config...")

/-- A value bound by one module-level assignment, for the statement-order
trace: a string constant or a cache-configuration dictionary. -/
inductive ConfigValue where
  | str (s : String)
  | cache (c : CacheConfig)
deriving DecidableEq, Repr

/-- Run one environment lookup inside the trace: on failure the evaluation
stops with the error and the assignments made so far; on success the binding
is appended and evaluation continues. -/
def bindEnv (env : Env) (acc : List (String × ConfigValue)) (name : String)
    (default : Option String)
    (k : List (String × ConfigValue) → String → List (String × ConfigValue) × Option String) :
    List (String × ConfigValue) × Option String :=
  match get_env_variable env name default with
  | Except.error e => (acc, some e)
  | Except.ok v => k (acc ++ [(name, ConfigValue.str v)]) v

/-- The module-level assignments involving the environment and the derived
values, in source statement order: the six database variables, then the
connection URI, then the Redis variables, then the cache dictionaries and the
Celery broker/result URLs. Returns the assignments made before the first
failure together with the error, if any. -/
def moduleTrace (env : Env) : List (String × ConfigValue) × Option String :=
  bindEnv env [] "DATABASE_DIALECT" none fun acc database_dialect =>
  bindEnv env acc "DATABASE_USER" none fun acc database_user =>
  bindEnv env acc "DATABASE_PASSWORD" none fun acc database_password =>
  bindEnv env acc "DATABASE_HOST" none fun acc database_host =>
  bindEnv env acc "DATABASE_PORT" none fun acc database_port =>
  bindEnv env acc "DATABASE_DB" none fun acc database_db =>
  let acc := acc ++ [("SQLALCHEMY_DATABASE_URI",
    ConfigValue.str (format_database_uri database_dialect database_user database_password
      database_host database_port database_db))]
  bindEnv env acc "REDIS_HOST" none fun acc redis_host =>
  bindEnv env acc "REDIS_PORT" none fun acc redis_port =>
  bindEnv env acc "REDIS_CELERY_DB" (some "0") fun acc redis_celery_db =>
  bindEnv env acc "REDIS_RESULTS_DB" (some "1") fun acc redis_results_db =>
  let cache := mkCacheConfig redis_host redis_port redis_results_db
  (acc ++ [("CACHE_CONFIG", ConfigValue.cache cache),
           ("DATA_CACHE_CONFIG", ConfigValue.cache cache),
           ("CELERY_broker_url",
             ConfigValue.str ("redis://" ++ redis_host ++ ":" ++ redis_port ++ "/" ++ redis_celery_db)),
           ("CELERY_result_backend",
             ConfigValue.str ("redis://" ++ redis_host ++ ":" ++ redis_port ++ "/" ++ redis_results_db))],
   none)

/-- A complete environment: the eight required variables set, the two
optional Redis db indices left unset. -/
def envOk : Env := fun n =>
  if n = "DATABASE_DIALECT" then some "postgresql"
  else if n = "DATABASE_USER" then some "u"
  else if n = "DATABASE_PASSWORD" then some "p"
  else if n = "DATABASE_HOST" then some "h"
  else if n = "DATABASE_PORT" then some "5432"
  else if n = "DATABASE_DB" then some "d"
  else if n = "REDIS_HOST" then some "redis"
  else if n = "REDIS_PORT" then some "6379"
  else none

/-- The empty environment: every variable unset. -/
def envEmpty : Env := fun _ => none

/-- An environment with the six database variables set but both Redis
host/port variables unset. -/
def envRedisMissing : Env := fun n =>
  if n = "DATABASE_DIALECT" then some "postgresql"
  else if n = "DATABASE_USER" then some "u"
  else if n = "DATABASE_PASSWORD" then some "p"
  else if n = "DATABASE_HOST" then some "h"
  else if n = "DATABASE_PORT" then some "5432"
  else if n = "DATABASE_DB" then some "d"
  else none

/-- The configuration `resolveConfig` derives from `envOk`. -/
def cfg0 : SupersetConfig :=
  { DATABASE_DIALECT := "postgresql"
    DATABASE_USER := "u"
    DATABASE_PASSWORD := "p"
    DATABASE_HOST := "h"
    DATABASE_PORT := "5432"
    DATABASE_DB := "d"
    SQLALCHEMY_DATABASE_URI := "postgresql://u:p@h:5432/d"
    REDIS_HOST := "redis"
    REDIS_PORT := "6379"
    REDIS_CELERY_DB := "0"
    REDIS_RESULTS_DB := "1"
    CACHE_CONFIG := mkCacheConfig "redis" "6379" "1"
    DATA_CACHE_CONFIG := mkCacheConfig "redis" "6379" "1"
    CELERY_CONFIG := mkCeleryConfig "redis" "6379" "0" "1" }

/-- A concrete base namespace for exercising the override step. -/
def baseNs : String → Option Nat := fun n =>
  if n = "A" then some 1 else if n = "B" then some 2 else none

/-- A concrete override namespace redefining only the name `"B"`. -/
def ovNs : String → Option Nat := fun n =>
  if n = "B" then some 3 else none

/-- `resolveConfig` on the complete environment yields exactly `cfg0`. -/
theorem resolveConfig_envOk : resolveConfig envOk = Except.ok cfg0 := by rfl

/-- Injectivity of `Except.ok` over strings and any result type. -/
theorem except_ok_inj {α : Type} {a b : α}
    (h : (Except.ok a : Except String α) = Except.ok b) : a = b :=
  Except.ok.inj h

/-- If the variable is set to `V`, a successful lookup result equals `V`. -/
theorem getEnv_value_eq (env : Env) (name V : String) (d : Option String) (w : String)
    (hV : env name = some V) (hw : get_env_variable env name d = Except.ok w) : w = V := by
  unfold get_env_variable at hw
  rw [hV] at hw
  exact (except_ok_inj hw).symm

/-- A set variable resolves to its value, whatever the default. -/
theorem getEnv_ok_of_set (env : Env) (name V : String) (d : Option String)
    (h : env name = some V) : get_env_variable env name d = Except.ok V := by
  unfold get_env_variable
  rw [h]

/-- An unset variable with a default resolves to the default. -/
theorem getEnv_default_of_unset (env : Env) (name d : String)
    (h : env name = none) : get_env_variable env name (some d) = Except.ok d := by
  unfold get_env_variable
  rw [h]

/-- An unset variable without a default fails with the missing-variable
message. -/
theorem getEnv_error_of_unset (env : Env) (name : String)
    (h : env name = none) :
    get_env_variable env name none = Except.error (missing_error_msg name) := by
  unfold get_env_variable
  rw [h]

/-- A successful required lookup means the variable was set to that value. -/
theorem getEnv_ok_required (env : Env) (name v : String)
    (h : get_env_variable env name none = Except.ok v) : env name = some v := by
  unfold get_env_variable at h
  cases he : env name with
  | some a => rw [he] at h; cases h; rfl
  | none => rw [he] at h; cases h

/-- The only failure of `get_env_variable`: the variable unset, no default
supplied, and the error carrying the missing-variable message. -/
theorem getEnv_error_inv (env : Env) (name : String) (d : Option String) (e : String)
    (h : get_env_variable env name d = Except.error e) :
    e = missing_error_msg name ∧ env name = none ∧ d = none := by
  unfold get_env_variable at h
  cases he : env name with
  | some a => rw [he] at h; cases h
  | none =>
    rw [he] at h
    cases hd : d with
    | some x => rw [hd] at h; cases h
    | none => rw [hd] at h; cases h; exact ⟨rfl, rfl, rfl⟩

/-- What a successful run of the module-level resolution sequence implies:
each field of the produced configuration is the result of its
`get_env_variable` lookup, and each derived value is assembled from the
resolved fields exactly as in the source. -/
theorem resolve_ok_spec (env : Env) (c : SupersetConfig)
    (h : resolveConfig env = Except.ok c) :
    get_env_variable env "DATABASE_DIALECT" none = Except.ok c.DATABASE_DIALECT ∧
    get_env_variable env "DATABASE_USER" none = Except.ok c.DATABASE_USER ∧
    get_env_variable env "DATABASE_PASSWORD" none = Except.ok c.DATABASE_PASSWORD ∧
    get_env_variable env "DATABASE_HOST" none = Except.ok c.DATABASE_HOST ∧
    get_env_variable env "DATABASE_PORT" none = Except.ok c.DATABASE_PORT ∧
    get_env_variable env "DATABASE_DB" none = Except.ok c.DATABASE_DB ∧
    get_env_variable env "REDIS_HOST" none = Except.ok c.REDIS_HOST ∧
    get_env_variable env "REDIS_PORT" none = Except.ok c.REDIS_PORT ∧
    get_env_variable env "REDIS_CELERY_DB" (some "0") = Except.ok c.REDIS_CELERY_DB ∧
    get_env_variable env "REDIS_RESULTS_DB" (some "1") = Except.ok c.REDIS_RESULTS_DB ∧
    c.SQLALCHEMY_DATABASE_URI =
      format_database_uri c.DATABASE_DIALECT c.DATABASE_USER c.DATABASE_PASSWORD
        c.DATABASE_HOST c.DATABASE_PORT c.DATABASE_DB ∧
    c.CACHE_CONFIG = mkCacheConfig c.REDIS_HOST c.REDIS_PORT c.REDIS_RESULTS_DB ∧
    c.DATA_CACHE_CONFIG = c.CACHE_CONFIG ∧
    c.CELERY_CONFIG = mkCeleryConfig c.REDIS_HOST c.REDIS_PORT c.REDIS_CELERY_DB c.REDIS_RESULTS_DB := by
  unfold resolveConfig at h
  repeat' split at h
  all_goals cases h
  simp_all

/-- Looking up a key in the overwrite map finds the new value whenever the
key occurs in the dictionary. -/
theorem dictGet_map_overwrite (d : List (String × Bool)) (k : String) (v : Bool)
    (hmem : dictHasKey d k = true) :
    dictGet (d.map (fun p => if p.1 = k then (k, v) else p)) k = some v := by
  induction d with
  | nil => simp [dictHasKey] at hmem
  | cons p t ih =>
    by_cases hp : p.1 = k
    · simp [dictGet, hp]
    · unfold dictHasKey at hmem
      rw [if_neg hp] at hmem
      simp [dictGet, hp, ih hmem]

/-- Keys other than the overwritten one keep their values under the
overwrite map. -/
theorem dictGet_map_overwrite_ne (d : List (String × Bool)) (k : String) (v : Bool)
    (f : String) (hf : f ≠ k) :
    dictGet (d.map (fun p => if p.1 = k then (k, v) else p)) f = dictGet d f := by
  induction d with
  | nil => rfl
  | cons p t ih =>
    by_cases hp : p.1 = k
    · have hpf : ¬ p.1 = f := by rw [hp]; exact fun hkf => hf hkf.symm
      have hkf : ¬ k = f := fun hkf => hf hkf.symm
      simp [dictGet, hp, hpf, hkf, ih]
    · by_cases hpf : p.1 = f
      · simp [dictGet, hp, hpf, hf]
      · simp [dictGet, hp, hpf, ih]

/-- An absent key looks up to `none`. -/
theorem dictGet_none_of_not_hasKey (d : List (String × Bool)) (k : String)
    (h : dictHasKey d k = false) : dictGet d k = none := by
  induction d with
  | nil => rfl
  | cons p t ih =>
    unfold dictHasKey at h
    by_cases hp : p.1 = k
    · rw [if_pos hp] at h; cases h
    · rw [if_neg hp] at h
      simp [dictGet, hp, ih h]

/-- Lookup in an appended dictionary: the left part wins. -/
theorem dictGet_append (d₁ d₂ : List (String × Bool)) (k : String) :
    dictGet (d₁ ++ d₂) k =
      match dictGet d₁ k with
      | some v => some v
      | none => dictGet d₂ k := by
  induction d₁ with
  | nil => rfl
  | cons p t ih =>
    by_cases hp : p.1 = k
    · simp [dictGet, hp]
    · simp [dictGet, hp, ih]

/-- After `d[k] = v`, looking up `k` yields `v`. -/
theorem dictGet_dictSet_self (d : List (String × Bool)) (k : String) (v : Bool) :
    dictGet (dictSet d k v) k = some v := by
  unfold dictSet
  by_cases hmem : dictHasKey d k
  · rw [if_pos hmem]
    exact dictGet_map_overwrite d k v hmem
  · rw [if_neg hmem]
    rw [dictGet_append]
    rw [dictGet_none_of_not_hasKey d k (by simpa using hmem)]
    simp [dictGet]

/-- After `d[k] = v`, every other key looks up as before. -/
theorem dictGet_dictSet_ne (d : List (String × Bool)) (k : String) (v : Bool)
    (f : String) (hf : f ≠ k) :
    dictGet (dictSet d k v) f = dictGet d f := by
  unfold dictSet
  by_cases hmem : dictHasKey d k
  · rw [if_pos hmem]
    exact dictGet_map_overwrite_ne d k v f hf
  · rw [if_neg hmem]
    rw [dictGet_append]
    cases hd : dictGet d f with
    | some w => rfl
    | none =>
      have hk : ¬ k = f := fun h => hf h.symm
      simp [dictGet, hk]

/-- C1: when a variable is absent from the environment and no default is
supplied, `get_env_variable` fails with the Missing Required Configuration
error (`EnvironmentError`) whose message contains the variable's name, no
value is returned, and this is the only failure the resolver can raise: any
error produced by `get_env_variable` carries exactly that message, and occurs
only with the variable unset and no default supplied. -/
theorem C1_missing_required_configuration :
    (∀ (env : Env) (name : String), env name = none →
      get_env_variable env name none = Except.error (missing_error_msg name) ∧
      (∃ pre suf, missing_error_msg name = pre ++ name ++ suf) ∧
      ∀ v, get_env_variable env name none ≠ Except.ok v) ∧
    (∀ (env : Env) (name : String) (d : Option String) (e : String),
      get_env_variable env name d = Except.error e →
      e = missing_error_msg name ∧ env name = none ∧ d = none) := by
  constructor
  · intro env name h
    refine ⟨getEnv_error_of_unset env name h,
      ⟨"The environment variable ", " was missing, abort...", rfl⟩, ?_⟩
    intro v hv
    rw [getEnv_error_of_unset env name h] at hv
    cases hv
  · intro env name d e h
    exact getEnv_error_inv env name d e h

/-- Witness for C1 at the empty environment and `DATABASE_HOST`. -/
theorem C1_missing_required_configuration_w :
    get_env_variable envEmpty "DATABASE_HOST" none =
      Except.error (missing_error_msg "DATABASE_HOST") :=
  (C1_missing_required_configuration.1 envEmpty "DATABASE_HOST" rfl).1

/-- C2: a variable set to `V` resolves to exactly `V`, whatever the default
argument, and `V` is the value appearing in the derived configuration for
each of the ten environment-backed fields. -/
theorem C2_set_variable_returns_value :
    (∀ (env : Env) (name V : String) (d : Option String),
      env name = some V → get_env_variable env name d = Except.ok V) ∧
    (∀ (env : Env) (c : SupersetConfig), resolveConfig env = Except.ok c →
      (∀ V, env "DATABASE_DIALECT" = some V → c.DATABASE_DIALECT = V) ∧
      (∀ V, env "DATABASE_USER" = some V → c.DATABASE_USER = V) ∧
      (∀ V, env "DATABASE_PASSWORD" = some V → c.DATABASE_PASSWORD = V) ∧
      (∀ V, env "DATABASE_HOST" = some V → c.DATABASE_HOST = V) ∧
      (∀ V, env "DATABASE_PORT" = some V → c.DATABASE_PORT = V) ∧
      (∀ V, env "DATABASE_DB" = some V → c.DATABASE_DB = V) ∧
      (∀ V, env "REDIS_HOST" = some V → c.REDIS_HOST = V) ∧
      (∀ V, env "REDIS_PORT" = some V → c.REDIS_PORT = V) ∧
      (∀ V, env "REDIS_CELERY_DB" = some V → c.REDIS_CELERY_DB = V) ∧
      (∀ V, env "REDIS_RESULTS_DB" = some V → c.REDIS_RESULTS_DB = V)) := by
  constructor
  · exact getEnv_ok_of_set
  · intro env c h
    obtain ⟨h1, h2, h3, h4, h5, h6, h7, h8, h9, h10, _⟩ := resolve_ok_spec env c h
    exact ⟨fun V hV => getEnv_value_eq env _ V _ _ hV h1,
      fun V hV => getEnv_value_eq env _ V _ _ hV h2,
      fun V hV => getEnv_value_eq env _ V _ _ hV h3,
      fun V hV => getEnv_value_eq env _ V _ _ hV h4,
      fun V hV => getEnv_value_eq env _ V _ _ hV h5,
      fun V hV => getEnv_value_eq env _ V _ _ hV h6,
      fun V hV => getEnv_value_eq env _ V _ _ hV h7,
      fun V hV => getEnv_value_eq env _ V _ _ hV h8,
      fun V hV => getEnv_value_eq env _ V _ _ hV h9,
      fun V hV => getEnv_value_eq env _ V _ _ hV h10⟩

/-- Witness for C2 at `envOk`: `DATABASE_USER` is set to `"u"`, resolves to
`"u"` even with a default supplied, and the derived configuration carries
`"u"`. -/
theorem C2_set_variable_returns_value_w :
    get_env_variable envOk "DATABASE_USER" (some "zzz") = Except.ok "u" ∧
    cfg0.DATABASE_USER = "u" :=
  ⟨C2_set_variable_returns_value.1 envOk "DATABASE_USER" "u" (some "zzz") rfl,
   (C2_set_variable_returns_value.2 envOk cfg0 (by rfl)).2.1 "u" rfl⟩

/-- C3: an unset variable with a supplied default resolves to exactly that
default; in particular an unset `REDIS_CELERY_DB` resolves to `"0"` (the
task-queue broker's db index) and an unset `REDIS_RESULTS_DB` to `"1"` (the
result store's db index) in the derived configuration. -/
theorem C3_unset_variable_takes_default :
    (∀ (env : Env) (name d : String), env name = none →
      get_env_variable env name (some d) = Except.ok d) ∧
    (∀ (env : Env) (c : SupersetConfig), resolveConfig env = Except.ok c →
      (env "REDIS_CELERY_DB" = none → c.REDIS_CELERY_DB = "0") ∧
      (env "REDIS_RESULTS_DB" = none → c.REDIS_RESULTS_DB = "1")) := by
  constructor
  · exact getEnv_default_of_unset
  · intro env c h
    obtain ⟨_, _, _, _, _, _, _, _, h9, h10, _⟩ := resolve_ok_spec env c h
    constructor
    · intro hu
      rw [getEnv_default_of_unset env _ _ hu] at h9
      exact (except_ok_inj h9).symm
    · intro hu
      rw [getEnv_default_of_unset env _ _ hu] at h10
      exact (except_ok_inj h10).symm

/-- Witness for C3 at `envOk`, where both Redis db indices are unset. -/
theorem C3_unset_variable_takes_default_w :
    get_env_variable envEmpty "REDIS_CELERY_DB" (some "0") = Except.ok "0" ∧
    cfg0.REDIS_CELERY_DB = "0" ∧ cfg0.REDIS_RESULTS_DB = "1" :=
  ⟨C3_unset_variable_takes_default.1 envEmpty "REDIS_CELERY_DB" "0" rfl,
   (C3_unset_variable_takes_default.2 envOk cfg0 (by rfl)).1 rfl,
   (C3_unset_variable_takes_default.2 envOk cfg0 (by rfl)).2 rfl⟩

/-- C4: the derived connection URI is the exact concatenation
`dialect ++ "://" ++ user ++ ":" ++ password ++ "@" ++ host ++ ":" ++ port ++
"/" ++ db`, both as a formatting function, at the fixed sample inputs, and
inside every successfully derived configuration. -/
theorem C4_uri_is_exact_concatenation :
    (∀ dialect user password host port db : String,
      format_database_uri dialect user password host port db =
        dialect ++ "://" ++ user ++ ":" ++ password ++ "@" ++ host ++ ":" ++ port ++ "/" ++ db) ∧
    format_database_uri "postgresql" "u" "p" "h" "5432" "d" = "postgresql://u:p@h:5432/d" ∧
    (∀ (env : Env) (c : SupersetConfig), resolveConfig env = Except.ok c →
      c.SQLALCHEMY_DATABASE_URI =
        c.DATABASE_DIALECT ++ "://" ++ c.DATABASE_USER ++ ":" ++ c.DATABASE_PASSWORD ++ "@" ++
          c.DATABASE_HOST ++ ":" ++ c.DATABASE_PORT ++ "/" ++ c.DATABASE_DB) := by
  refine ⟨fun _ _ _ _ _ _ => rfl, by rfl, ?_⟩
  intro env c h
  exact (resolve_ok_spec env c h).2.2.2.2.2.2.2.2.2.2.1

/-- Witness for C4 at `envOk` and its derived configuration `cfg0`. -/
theorem C4_uri_is_exact_concatenation_w :
    cfg0.SQLALCHEMY_DATABASE_URI =
      cfg0.DATABASE_DIALECT ++ "://" ++ cfg0.DATABASE_USER ++ ":" ++ cfg0.DATABASE_PASSWORD ++ "@" ++
        cfg0.DATABASE_HOST ++ ":" ++ cfg0.DATABASE_PORT ++ "/" ++ cfg0.DATABASE_DB :=
  C4_uri_is_exact_concatenation.2.2 envOk cfg0 (by rfl)

/-- C5 counterexample: with the six database variables set and `REDIS_HOST`
(a required variable) unset, module evaluation does fail, but only after the
derived connection URI has already been computed and assigned — refuting
"fails before any derived value is computed, and no partial configuration is
ever produced". -/
theorem C5_cex :
    envRedisMissing "REDIS_HOST" = none ∧
    (moduleTrace envRedisMissing).2 = some (missing_error_msg "REDIS_HOST") ∧
    ("SQLALCHEMY_DATABASE_URI", ConfigValue.str "postgresql://u:p@h:5432/d") ∈
      (moduleTrace envRedisMissing).1 := by
  refine ⟨rfl, rfl, ?_⟩
  simp [moduleTrace, bindEnv, get_env_variable, envRedisMissing, format_database_uri]

/-- C5 (amended): when any of the eight required variables is absent, the
resolver fails with an error and yields no configuration — though derived
values assigned before the failing lookup (the connection URI, when only a
Redis variable is missing) are computed before the failure. -/
theorem C5_required_missing_fails (env : Env)
    (hmiss : env "DATABASE_DIALECT" = none ∨ env "DATABASE_USER" = none ∨
      env "DATABASE_PASSWORD" = none ∨ env "DATABASE_HOST" = none ∨
      env "DATABASE_PORT" = none ∨ env "DATABASE_DB" = none ∨
      env "REDIS_HOST" = none ∨ env "REDIS_PORT" = none) :
    (resolveConfig env).toOption = none := by
  cases hr : resolveConfig env with
  | error e => rfl
  | ok c =>
    exfalso
    obtain ⟨h1, h2, h3, h4, h5, h6, h7, h8, _⟩ := resolve_ok_spec env c hr
    rcases hmiss with h|h|h|h|h|h|h|h
    · have hs := getEnv_ok_required env _ _ h1; rw [h] at hs; cases hs
    · have hs := getEnv_ok_required env _ _ h2; rw [h] at hs; cases hs
    · have hs := getEnv_ok_required env _ _ h3; rw [h] at hs; cases hs
    · have hs := getEnv_ok_required env _ _ h4; rw [h] at hs; cases hs
    · have hs := getEnv_ok_required env _ _ h5; rw [h] at hs; cases hs
    · have hs := getEnv_ok_required env _ _ h6; rw [h] at hs; cases hs
    · have hs := getEnv_ok_required env _ _ h7; rw [h] at hs; cases hs
    · have hs := getEnv_ok_required env _ _ h8; rw [h] at hs; cases hs

/-- Witness for the amended C5 at `envRedisMissing`. -/
theorem C5_required_missing_fails_w :
    (resolveConfig envRedisMissing).toOption = none :=
  C5_required_missing_fails envRedisMissing (by decide)

/-- C6: when the override module cannot be located, the final namespace is
identical to the base namespace — no name added, removed or changed — the
condition is logged informationally ("Using default Docker config...") and
the step returns normally. -/
theorem C6_override_absent_keeps_defaults {V : Type} (base : String → Option V) :
    applyDockerOverride base none = (base, "Using default Docker config...") := rfl

/-- C7: when the override module is available, every top-level name it
exposes is copied over the base namespace, replacing an existing entry of the
same name, and every name it does not expose keeps its base value. -/
theorem C7_override_present_replaces_and_frames {V : Type}
    (base o : String → Option V) (n : String) :
    (∀ v, o n = some v → (applyDockerOverride base (some o)).1 n = some v) ∧
    (o n = none → (applyDockerOverride base (some o)).1 n = base n) := by
  constructor
  · intro v hv
    simp [applyDockerOverride, importStar, hv]
  · intro hv
    simp [applyDockerOverride, importStar, hv]

/-- Witness for C7 at the concrete namespaces `baseNs` and `ovNs`. -/
theorem C7_override_present_replaces_and_frames_w :
    (applyDockerOverride baseNs (some ovNs)).1 "B" = some 3 ∧
    (applyDockerOverride baseNs (some ovNs)).1 "A" = baseNs "A" :=
  ⟨(C7_override_present_replaces_and_frames baseNs ovNs "B").1 3 (by decide),
   (C7_override_present_replaces_and_frames baseNs ovNs "A").2 (by decide)⟩

/-- C8: merging an override mapping that redefines exactly one feature flag
changes only that flag; every other flag keeps its value from the default
feature-flag table. -/
theorem C8_single_flag_override_frame (flag : String) (v : Bool) :
    dictGet (mergedFeatureFlags [(flag, v)]) flag = some v ∧
    ∀ f, f ≠ flag →
      dictGet (mergedFeatureFlags [(flag, v)]) f = dictGet DEFAULT_FEATURE_FLAGS f := by
  have hm : mergedFeatureFlags [(flag, v)] = dictSet DEFAULT_FEATURE_FLAGS flag v := rfl
  rw [hm]
  exact ⟨dictGet_dictSet_self _ _ _, fun f hf => dictGet_dictSet_ne _ _ _ _ hf⟩

/-- Witness for C8: overriding only `CLIENT_CACHE` to `true` leaves
`DRUID_JOINS` at its table default. -/
theorem C8_single_flag_override_frame_w :
    dictGet (mergedFeatureFlags [("CLIENT_CACHE", true)]) "CLIENT_CACHE" = some true ∧
    dictGet (mergedFeatureFlags [("CLIENT_CACHE", true)]) "DRUID_JOINS" =
      dictGet DEFAULT_FEATURE_FLAGS "DRUID_JOINS" :=
  ⟨(C8_single_flag_override_frame "CLIENT_CACHE" true).1,
   (C8_single_flag_override_frame "CLIENT_CACHE" true).2 "DRUID_JOINS" (by decide)⟩

/-- C9: in every successfully derived configuration the general cache
configuration and the data cache configuration are equal mappings (every key
has the same value in both). -/
theorem C9_cache_configs_equal (env : Env) (c : SupersetConfig)
    (h : resolveConfig env = Except.ok c) :
    c.DATA_CACHE_CONFIG = c.CACHE_CONFIG :=
  (resolve_ok_spec env c h).2.2.2.2.2.2.2.2.2.2.2.2.1

/-- Witness for C9 at `envOk` and its derived configuration `cfg0`. -/
theorem C9_cache_configs_equal_w :
    cfg0.DATA_CACHE_CONFIG = cfg0.CACHE_CONFIG :=
  C9_cache_configs_equal envOk cfg0 (by rfl)

/-- C10: even with no override source, the module defines a non-empty
feature-flag override mapping `FEATURE_FLAGS` equal to
`[("ALERT_REPORTS", true)]`, while the default table maps `ALERT_REPORTS` to
`false`; after the host application's layered merge the `ALERT_REPORTS` flag
is `true` in the default deployment. -/
theorem C10_alert_reports_enabled_by_module_override :
    FEATURE_FLAGS = [("ALERT_REPORTS", true)] ∧
    FEATURE_FLAGS.isEmpty = false ∧
    dictGet DEFAULT_FEATURE_FLAGS "ALERT_REPORTS" = some false ∧
    dictGet (mergedFeatureFlags FEATURE_FLAGS) "ALERT_REPORTS" = some true := by
  refine ⟨rfl, rfl, ?_, ?_⟩ <;> decide
